import Mathlib

/-!
Verification of the Honeywell Lyric integration adapter
(`homeassistant/components/lyric/__init__.py`).

The module is shallowly embedded: Python dicts become association lists
with Python update/delete semantics, coroutines that can raise become
functions returning `Except`, and the process-wide `hass` object becomes
an explicit state record threaded through the entry points.
-/

namespace Lyric

/-- Constants from the integration's `const` module (the module itself is
not part of the sources at hand; the names and roles are taken from the
specification: the integration domain key, the fixed shared-state key for
the vendor session wrapper, the hold-time service name, the config keys
for OAuth client id/secret and the token cache file name). -/
def DOMAIN : String := "lyric"

def DATA_LYRIC_CLIENT : String := "lyric_client"

def SERVICE_HOLD_TIME : String := "set_hold_time"

def CONF_CLIENT_ID : String := "client_id"

def CONF_CLIENT_SECRET : String := "client_secret"

def CONF_LYRIC_CONFIG_FILE : String := "lyric.conf"

def CONF_TOKEN : String := "token"

/-- A thermostat as exposed by the vendor SDK (opaque to this module;
only the fields this module reads are kept). -/
structure Device where
  macID : String
  name : String
  id : String
deriving Repr, DecidableEq

/-- A physical site known to the vendor SDK, with its thermostats. -/
structure Location where
  name : String
  thermostats : List Device
deriving Repr, DecidableEq

/-- The vendor SDK client object (`lyric.Lyric`). Its credential fields
are those passed by `async_setup_entry`; `locations` is the SDK's
in-memory location collection. -/
structure LyricSDK where
  app_name : String
  client_id : String
  client_secret : String
  token : String
  token_cache_file : String
  locations : List Location
deriving Repr, DecidableEq

/-- The vendor session wrapper `LyricClient`: holds the SDK client and a
derived list of location names (`self._location`). -/
structure LyricClient where
  lyric : LyricSDK
  _location : List String
deriving Repr, DecidableEq

/-- `LyricClient.__init__`: store the SDK client and derive the location
name list. -/
def LyricClient.init (lyric : LyricSDK) : LyricClient :=
  { lyric := lyric, _location := lyric.locations.map Location.name }

/-- `LyricClient.devices`: for every location of the SDK client, yield
`(location, device)` for every thermostat at that location. -/
def LyricClient.devices (c : LyricClient) : List (Location × Device) :=
  c.lyric.locations.flatMap fun location =>
    location.thermostats.map fun device => (location, device)

/-- Enumerating the generator step by step, threading the wrapper state
through the iteration over the location list.  The generator body only
reads `self.lyric.locations`, so the wrapper passes through unchanged. -/
def devicesStep : LyricClient → List Location → List (Location × Device) × LyricClient
  | c, [] => ([], c)
  | c, location :: rest =>
    let pairs := location.thermostats.map fun device => (location, device)
    let (restPairs, c') := devicesStep c rest
    (pairs ++ restPairs, c')

/-- A full enumeration of `devices()` in state-passing form: the produced
pair list together with the wrapper state after exhaustion. -/
def LyricClient.devicesEnum (c : LyricClient) : List (Location × Device) × LyricClient :=
  devicesStep c c.lyric.locations

/-! ### Python dictionaries as association lists -/

/-- `d[k] = v` on a Python dict: overwrite the binding if the key is
present, append it otherwise. -/
def pySet {V : Type} (k : String) (v : V) : List (String × V) → List (String × V)
  | [] => [(k, v)]
  | (k', v') :: rest => if k' = k then (k', v) :: rest else (k', v') :: pySet k v rest

/-- `del d[k]` on a Python dict: remove the binding, raising `KeyError`
when the key is absent. -/
def pyDel {V : Type} (k : String) (d : List (String × V)) :
    Except String (List (String × V)) :=
  if (d.lookup k).isSome then .ok (d.filter fun p => p.1 ≠ k) else .error "KeyError"

/-! ### The host state -/

/-- A registered local OAuth2 implementation
(`config_entry_oauth2_flow.LocalOAuth2Implementation`).  `token` and
`token_cache_file` are attributes injected later by entry setup. -/
structure OAuthImplementation where
  domain : String
  client_id : String
  client_secret : String
  authorize_url : String
  token_url : String
  token : Option String
  token_cache_file : Option String
deriving Repr, DecidableEq

/-- The config sub-mapping `config[DOMAIN]` after schema validation:
required OAuth client id and secret. -/
structure LyricConfig where
  client_id : String
  client_secret : String
deriving Repr, DecidableEq

/-- A persisted config entry: a key-value record
(token, optional implementation marker, ...). -/
structure ConfigEntry where
  data : List (String × String)
deriving Repr, DecidableEq

/-- The slice of the process-wide `hass` object this module touches:
the shared integration state mapping `hass.data` (domain name to the
inner mapping holding the vendor session wrapper), the registered OAuth
implementations, the service registry as `(domain, service)` pairs, the
configuration directory backing `hass.config.path`, and trace lists of
the sub-platforms forwarded by entry setup / entry unload. -/
structure Hass where
  data : List (String × List (String × LyricClient))
  implementations : List OAuthImplementation
  services : List (String × String)
  configDir : String
  forwardedSetups : List String
  forwardedUnloads : List String
deriving Repr, DecidableEq

/-- `hass.config.path(f)`: resolve a file name inside the configuration
directory. -/
def Hass.configPath (hass : Hass) (f : String) : String :=
  hass.configDir ++ "/" ++ f

/-- The declared sub-platform list `LYRIC_COMPONENTS`. -/
def LYRIC_COMPONENTS : List String := ["climate", "sensor"]

/-! ### Entry points -/

/-- `async_setup`: set `hass.data[DOMAIN]` to an empty mapping; when the
global configuration carries the domain key, register a local OAuth2
implementation with the fixed Honeywell endpoints; return `True`
unconditionally. -/
def async_setup (hass : Hass) (config : List (String × LyricConfig)) : Hass × Bool :=
  let hass := { hass with data := pySet DOMAIN [] hass.data }
  match config.lookup DOMAIN with
  | none => (hass, true)
  | some c =>
    ({ hass with
        implementations := hass.implementations ++
          [{ domain := DOMAIN
             client_id := c.client_id
             client_secret := c.client_secret
             authorize_url := "https://api.honeywell.com/oauth2/authorize"
             token_url := "https://api.honeywell.com/oauth2/token"
             token := none
             token_cache_file := none }] },
      true)

/-- Modelled from the spec: the host helper
`config_entry_oauth2_flow.async_get_config_entry_implementation` is not
among the sources at hand; per the spec it resolves the registered OAuth
implementation named by the entry's implementation marker and fails when
none is registered. -/
def async_get_config_entry_implementation (hass : Hass) (entry : ConfigEntry) :
    Except String OAuthImplementation :=
  match entry.data.lookup "auth_implementation" with
  | none => .error "missing auth_implementation"
  | some d =>
    match hass.implementations.find? fun impl => impl.domain = d with
    | none => .error "implementation not available"
    | some impl => .ok impl

/-- `async_setup_entry`: backfill the implementation marker when absent,
resolve the OAuth implementation, inject the entry's token and the token
cache file path, construct the vendor SDK client, store the wrapper in
shared state under `hass.data[DOMAIN][DATA_LYRIC_CLIENT]`, and schedule
forwarding of entity setup to each declared sub-platform.  Failures of
resolution or of the token lookup propagate; the result carries the host
state and the (possibly updated) entry reached so far.
`serverLocations` stands for the location collection the SDK client
acquires from the vendor cloud. -/
def async_setup_entry (serverLocations : List Location) (hass : Hass)
    (entry : ConfigEntry) : Hass × ConfigEntry × Except String Bool :=
  let entry :=
    if (entry.data.lookup "auth_implementation").isNone then
      { entry with data := pySet "auth_implementation" DOMAIN entry.data }
    else entry
  match async_get_config_entry_implementation hass entry with
  | .error e => (hass, entry, .error e)
  | .ok implementation =>
    match entry.data.lookup CONF_TOKEN with
    | none => (hass, entry, .error "KeyError")
    | some tok =>
      let implementation :=
        { implementation with
            token := some tok
            token_cache_file := some (hass.configPath CONF_LYRIC_CONFIG_FILE) }
      let lyric : LyricSDK :=
        { app_name := "Home Assistant"
          client_id := implementation.client_id
          client_secret := implementation.client_secret
          token := tok
          token_cache_file := hass.configPath CONF_LYRIC_CONFIG_FILE
          locations := serverLocations }
      let inner := (hass.data.lookup DOMAIN).getD []
      let hass :=
        { hass with
            data := pySet DOMAIN (pySet DATA_LYRIC_CLIENT (LyricClient.init lyric) inner)
              hass.data
            forwardedSetups := hass.forwardedSetups ++ LYRIC_COMPONENTS }
      (hass, entry, .ok true)

/-- Modelled from the spec: the host forwarding call
`config_entries.async_forward_entry_unload` is not among the sources at
hand; per the spec a sub-platform unload either succeeds or fails, and a
failure propagates through the join.  The oracle gives each
sub-platform's outcome. -/
def forwardEntryUnload (oracle : String → Bool) (component : String) :
    Except String Unit :=
  if oracle component then .ok () else .error component

/-- `asyncio.gather` over unit-valued tasks: await all, propagating a
failure if any task raised (all-or-nothing join). -/
def gatherAll {E : Type} : List (Except E Unit) → Except E Unit
  | [] => .ok ()
  | .error e :: _ => .error e
  | .ok _ :: rest => gatherAll rest

/-- `async_unload_entry`: request unload of every declared sub-platform
and join on all of them; a raised failure propagates and leaves the rest
of the body unexecuted.  On join success, remove the hold-time service
registration, delete the domain's entry from shared state (`del`, which
raises `KeyError` when absent), and return `True`. -/
def async_unload_entry (oracle : String → Bool) (hass : Hass) :
    Hass × Except String Bool :=
  let hass := { hass with forwardedUnloads := hass.forwardedUnloads ++ LYRIC_COMPONENTS }
  match gatherAll (LYRIC_COMPONENTS.map (forwardEntryUnload oracle)) with
  | .error e => (hass, .error e)
  | .ok _ =>
    let hass :=
      { hass with
          services := hass.services.filter fun s => s ≠ (DOMAIN, SERVICE_HOLD_TIME) }
    match pyDel DOMAIN hass.data with
    | .error e => (hass, .error e)
    | .ok d => ({ hass with data := d }, .ok true)

/-! ### Entity base contracts -/

/-- The signal raised by the default update hook. -/
inductive UpdateError where
  | notImplementedError
deriving Repr, DecidableEq

/-- The base entity `LyricEntity`: identity fields, the availability
flag, and the bound device/location. -/
structure LyricEntity where
  _unique_id : String
  _name : String
  _icon : String
  _device_class : String
  _available : Bool
  device : Device
  location : Location
deriving Repr, DecidableEq

/-- `LyricEntity.__init__`: store the identity fields, start
unavailable, and keep the device and its location. -/
def LyricEntity.init (device : Device) (location : Location) (unique_id : String)
    (name : String) (icon : String) (device_class : String) : LyricEntity :=
  { _unique_id := unique_id
    _name := name
    _icon := icon
    _device_class := device_class
    _available := false
    device := device
    location := location }

/-- An update hook, as a concrete entity type may override it: it may
fail, or succeed with a new entity state. -/
def UpdateHook : Type := LyricEntity → Except UpdateError LyricEntity

/-- The base class's `_lyric_update`: always raises
`NotImplementedError`. -/
def LyricEntity._lyric_update (_e : LyricEntity) : Except UpdateError LyricEntity :=
  .error .notImplementedError

/-- `LyricEntity.async_update`: run the (possibly overridden) update
hook; on its successful completion set the availability flag.  The
result pairs the entity state reached with the outcome: a raised error
leaves the flag untouched. -/
def LyricEntity.async_update (hook : UpdateHook) (e : LyricEntity) :
    LyricEntity × Except UpdateError Unit :=
  match hook e with
  | .error err => (e, .error err)
  | .ok e' => ({ e' with _available := true }, .ok ())

/-- `LyricDeviceEntity.device_info`: the device-info descriptor keyed by
domain and MAC address. -/
structure DeviceInfo where
  identifiers : List (String × String)
  name : String
  model : String
  manufacturer : String
deriving Repr, DecidableEq

def LyricDeviceEntity.device_info (e : LyricEntity) : DeviceInfo :=
  { identifiers := [(DOMAIN, e.device.macID)]
    name := e.device.name
    model := e.device.id
    manufacturer := "Honeywell" }

/-! ### Concrete sample data -/

def dev1 : Device := { macID := "m1", name := "T1", id := "id1" }

def dev2 : Device := { macID := "m2", name := "T2", id := "id2" }

def dev3 : Device := { macID := "m3", name := "T3", id := "id3" }

def dev4 : Device := { macID := "m4", name := "T4", id := "id4" }

def dev5 : Device := { macID := "m5", name := "T5", id := "id5" }

def locA : Location := { name := "A", thermostats := [dev1, dev2] }

def locB : Location := { name := "B", thermostats := [dev3, dev4, dev5] }

/-- An SDK client with no locations. -/
def sdkEmpty : LyricSDK :=
  { app_name := "Home Assistant", client_id := "cid", client_secret := "cs",
    token := "tok", token_cache_file := "/config/lyric.conf", locations := [] }

/-- An SDK client with two locations holding 2 and 3 thermostats. -/
def sdkTwoThree : LyricSDK := { sdkEmpty with locations := [locA, locB] }

def clientEmpty : LyricClient := LyricClient.init sdkEmpty

def clientTwoThree : LyricClient := LyricClient.init sdkTwoThree

/-- A freshly started host with nothing registered. -/
def hass0 : Hass :=
  { data := [], implementations := [], services := [], configDir := "/config",
    forwardedSetups := [], forwardedUnloads := [] }

/-- A host state as left by a completed entry setup: the wrapper is in
shared state and the hold-time service is registered. -/
def hassWithClient : Hass :=
  { hass0 with
      data := [(DOMAIN, [(DATA_LYRIC_CLIENT, clientEmpty)])]
      services := [(DOMAIN, SERVICE_HOLD_TIME)] }

/-- A registered implementation for the integration domain. -/
def implLyric : OAuthImplementation :=
  { domain := DOMAIN, client_id := "cid", client_secret := "cs",
    authorize_url := "https://api.honeywell.com/oauth2/authorize",
    token_url := "https://api.honeywell.com/oauth2/token",
    token := none, token_cache_file := none }

/-- A host ready for entry setup. -/
def hassReady : Hass := { hass0 with implementations := [implLyric] }

/-- A config entry holding a token but no implementation marker. -/
def entryTok : ConfigEntry := { data := [(CONF_TOKEN, "tok")] }

/-- A sub-platform unload outcome oracle on which every unload succeeds. -/
def oracleOk : String → Bool := fun _ => true

/-- A sub-platform unload outcome oracle on which every unload fails. -/
def oracleFail : String → Bool := fun _ => false

/-! ## Library lemmas -/

theorem devicesStep_state (c : LyricClient) (ls : List Location) :
    (devicesStep c ls).2 = c := by
  induction ls with
  | nil => rfl
  | cons l rest ih => simp [devicesStep, ih]

theorem devicesStep_list (c : LyricClient) (ls : List Location) :
    (devicesStep c ls).1 =
      ls.flatMap fun location => location.thermostats.map fun device => (location, device) := by
  induction ls with
  | nil => rfl
  | cons l rest ih => simp [devicesStep, ih]

theorem devicesEnum_eq (c : LyricClient) :
    c.devicesEnum = (c.devices, c) := by
  simp [LyricClient.devicesEnum, LyricClient.devices, devicesStep_state, devicesStep_list,
    Prod.ext_iff]

theorem pySet_lookup_eq {V : Type} (k : String) (v : V) (d : List (String × V)) :
    (pySet k v d).lookup k = some v := by
  induction d with
  | nil => simp [pySet, List.lookup]
  | cons p rest ih =>
    by_cases h : p.1 = k
    · simp [pySet, h, List.lookup]
    · have hbeq : (k == p.1) = false := beq_eq_false_iff_ne.mpr (Ne.symm h)
      simp [pySet, h, List.lookup, hbeq, ih]

theorem pySet_lookup_ne {V : Type} (k k' : String) (v : V) (d : List (String × V))
    (h : k' ≠ k) : (pySet k v d).lookup k' = d.lookup k' := by
  have hbeq : (k' == k) = false := beq_eq_false_iff_ne.mpr h
  induction d with
  | nil => simp [pySet, List.lookup, hbeq]
  | cons p rest ih =>
    by_cases hp : p.1 = k
    · subst hp
      simp [pySet, List.lookup, hbeq]
    · simp only [pySet, if_neg hp]
      cases hk' : (k' == p.1) <;> simp [List.lookup, hk', ih]

theorem lookup_filter_ne {V : Type} (k : String) (d : List (String × V)) :
    (d.filter fun p => p.1 ≠ k).lookup k = none := by
  induction d with
  | nil => rfl
  | cons p rest ih =>
    by_cases h : p.1 = k
    · simpa [List.filter, h] using ih
    · have hbeq : (k == p.1) = false := beq_eq_false_iff_ne.mpr (Ne.symm h)
      simpa [List.filter, h, List.lookup, hbeq] using ih

/-- Whatever the outcome, `async_setup_entry` returns the entry with the
implementation marker backfilled when it was absent, untouched
otherwise. -/
theorem async_setup_entry_entry (locs : List Location) (hass : Hass)
    (entry : ConfigEntry) :
    (async_setup_entry locs hass entry).2.1 =
      (if (entry.data.lookup "auth_implementation").isNone then
        { entry with data := pySet "auth_implementation" DOMAIN entry.data }
      else entry) := by
  simp only [async_setup_entry]
  split
  · rfl
  · split <;> rfl

/-- `async_setup_entry` either fails leaving the host state untouched,
or succeeds appending the declared sub-platforms to the setup forwarding
trace. -/
theorem async_setup_entry_cases (locs : List Location) (hass : Hass)
    (entry : ConfigEntry) :
    ((async_setup_entry locs hass entry).1 = hass ∧
      ∃ e, (async_setup_entry locs hass entry).2.2 = .error e) ∨
    ((async_setup_entry locs hass entry).1.forwardedSetups =
        hass.forwardedSetups ++ LYRIC_COMPONENTS ∧
      (async_setup_entry locs hass entry).2.2 = .ok true) := by
  simp only [async_setup_entry]
  split
  · exact .inl ⟨rfl, _, rfl⟩
  · split
    · exact .inl ⟨rfl, _, rfl⟩
    · exact .inr ⟨rfl, rfl⟩

/-- `async_unload_entry` appends the declared sub-platforms to the
unload forwarding trace in every outcome. -/
theorem async_unload_entry_forwarded (oracle : String → Bool) (hass : Hass) :
    (async_unload_entry oracle hass).1.forwardedUnloads =
      hass.forwardedUnloads ++ LYRIC_COMPONENTS := by
  simp only [async_unload_entry]
  split
  · rfl
  · split <;> rfl

/-! ## Claims -/

/-- C2: `devices()` yields exactly the pairs (location, thermostat) for
every location known to the client and every thermostat at that
location, each thermostat paired with its owning location: with zero
locations it yields the empty sequence, its length is the total
thermostat count, a pair is yielded iff its location is known and its
device belongs to that location, and on two locations holding 2 and 3
thermostats it yields exactly those 5 pairs in location order. -/
theorem c2_devices_exact (c : LyricClient) :
    (c.lyric.locations = [] → c.devices = []) ∧
    c.devices.length = (c.lyric.locations.map fun l => l.thermostats.length).sum ∧
    (∀ p : Location × Device,
      p ∈ c.devices ↔ p.1 ∈ c.lyric.locations ∧ p.2 ∈ p.1.thermostats) ∧
    clientTwoThree.devices =
      [(locA, dev1), (locA, dev2), (locB, dev3), (locB, dev4), (locB, dev5)] := by
  refine ⟨fun h => by simp [LyricClient.devices, h], ?_, ?_, by rfl⟩
  · have hlen : ∀ ls : List Location,
        (ls.flatMap fun l => l.thermostats.map fun d => (l, d)).length =
          (ls.map fun l => l.thermostats.length).sum := by
      intro ls
      induction ls with
      | nil => rfl
      | cons l rest ih => simp [ih]
    simpa [LyricClient.devices] using hlen c.lyric.locations
  · intro p
    constructor
    · intro hp
      simp only [LyricClient.devices, List.mem_flatMap, List.mem_map] at hp
      obtain ⟨l, hl, d, hd, hpd⟩ := hp
      subst hpd
      exact ⟨hl, hd⟩
    · rintro ⟨h1, h2⟩
      simp only [LyricClient.devices, List.mem_flatMap, List.mem_map]
      exact ⟨p.1, h1, p.2, h2, rfl⟩

/-- Witness for C2 at concrete clients: zero locations yield the empty
sequence, and the 2-and-3 client yields exactly 5 pairs. -/
theorem c2_devices_exact_witness :
    clientEmpty.devices = [] ∧ clientTwoThree.devices.length = 5 := by
  refine ⟨(c2_devices_exact clientEmpty).1 rfl, ?_⟩
  rw [(c2_devices_exact clientEmpty).2.2.2]
  rfl

/-- C6: two successive enumerations of `devices()` on the same wrapper
yield the same sequence (hence the same multiset) of (location, device)
pairs: the second call, run on the wrapper state left by the first,
produces the same pairs, there being no caching across calls. -/
theorem c6_devices_idempotent (w : LyricClient) :
    w.devicesEnum.2.devicesEnum.1 = w.devicesEnum.1 ∧
    (↑(w.devicesEnum.2.devicesEnum.1) : Multiset (Location × Device)) =
      ↑(w.devicesEnum.1) := by
  constructor <;> simp [devicesEnum_eq]

/-- C10: `devices()` is read-only: enumerating it leaves the wrapper
unchanged, the stored vendor client reference and the derived location
name list included. -/
theorem c10_devices_readonly (w : LyricClient) :
    w.devicesEnum.2.lyric = w.lyric ∧
    w.devicesEnum.2._location = w._location ∧
    w.devicesEnum.2 = w := by
  refine ⟨?_, ?_, ?_⟩ <;> simp [LyricClient.devicesEnum, devicesStep_state]

/-- C7: a concrete entity that does not override the update hook raises
`NotImplementedError` on its first update call, and its availability
flag remains false afterwards. -/
theorem c7_default_update_raises (device : Device) (location : Location)
    (uid name icon dc : String) :
    (LyricEntity.async_update LyricEntity._lyric_update
        (LyricEntity.init device location uid name icon dc)).2 =
      .error .notImplementedError ∧
    (LyricEntity.async_update LyricEntity._lyric_update
        (LyricEntity.init device location uid name icon dc)).1._available = false := by
  exact ⟨rfl, rfl⟩

/-- C5: when the global configuration lacks the integration domain key,
`async_setup` returns success, registers no OAuth implementation, and
still initializes the shared-state entry for the domain to an empty
mapping. -/
theorem c5_setup_without_domain_config (hass : Hass)
    (config : List (String × LyricConfig)) (h : config.lookup DOMAIN = none) :
    (async_setup hass config).2 = true ∧
    (async_setup hass config).1.implementations = hass.implementations ∧
    (async_setup hass config).1.data.lookup DOMAIN = some [] := by
  simp [async_setup, h, pySet_lookup_eq]

/-- Witness for C5 at a fresh host and the empty configuration. -/
theorem c5_setup_without_domain_config_witness :
    (async_setup hass0 []).2 = true ∧
    (async_setup hass0 []).1.implementations = hass0.implementations ∧
    (async_setup hass0 []).1.data.lookup DOMAIN = some [] :=
  c5_setup_without_domain_config hass0 [] rfl

/-- C3: for a config entry whose persisted data lacks the
implementation marker, the entry returned by entry setup carries the
marker equal to the integration domain, with every other data field
preserved. -/
theorem c3_marker_backfilled (locs : List Location) (hass : Hass)
    (entry : ConfigEntry) (h : entry.data.lookup "auth_implementation" = none) :
    (async_setup_entry locs hass entry).2.1.data.lookup "auth_implementation" =
      some DOMAIN ∧
    ∀ k, k ≠ "auth_implementation" →
      (async_setup_entry locs hass entry).2.1.data.lookup k = entry.data.lookup k := by
  have he := async_setup_entry_entry locs hass entry
  rw [h] at he
  simp only [Option.isNone_none, if_true] at he
  constructor
  · rw [he]
    exact pySet_lookup_eq _ _ _
  · intro k hk
    rw [he]
    exact pySet_lookup_ne _ _ _ _ hk

/-- Witness for C3 at a concrete entry holding only a token: the marker
is backfilled and the token is preserved. -/
theorem c3_marker_backfilled_witness :
    (async_setup_entry [] hassReady entryTok).2.1.data.lookup "auth_implementation" =
      some DOMAIN ∧
    (async_setup_entry [] hassReady entryTok).2.1.data.lookup CONF_TOKEN =
      entryTok.data.lookup CONF_TOKEN := by
  have h := c3_marker_backfilled [] hassReady entryTok (by decide)
  exact ⟨h.1, h.2 CONF_TOKEN (by decide)⟩

/-- C1: when at least one of the two forwarded sub-platform unloads
fails, the overall unload reports an error, and the shared state — the
domain's entry in particular — is left in place. -/
theorem c1_unload_subplatform_failure (oracle : String → Bool) (hass : Hass)
    (h : oracle "climate" = false ∨ oracle "sensor" = false) :
    (∃ e, (async_unload_entry oracle hass).2 = .error e) ∧
    (async_unload_entry oracle hass).1.data = hass.data ∧
    (async_unload_entry oracle hass).1.data.lookup DOMAIN =
      hass.data.lookup DOMAIN := by
  rcases h with h | h
  · simp [async_unload_entry, LYRIC_COMPONENTS, forwardEntryUnload, gatherAll, h]
  · cases hc : oracle "climate" <;>
      simp [async_unload_entry, LYRIC_COMPONENTS, forwardEntryUnload, gatherAll, h, hc]

/-- Witness for C1: unload on a fresh host with both sub-platform
unloads failing. -/
theorem c1_unload_subplatform_failure_witness :
    (∃ e, (async_unload_entry oracleFail hass0).2 = .error e) ∧
    (async_unload_entry oracleFail hass0).1.data = hass0.data ∧
    (async_unload_entry oracleFail hass0).1.data.lookup DOMAIN =
      hass0.data.lookup DOMAIN :=
  c1_unload_subplatform_failure oracleFail hass0 (Or.inl rfl)

/-- C4: when both forwarded sub-platform unloads succeed (and the
domain's shared-state entry exists, as left by setup), unload reports
success, the domain's shared-state entry is removed, and the hold-time
service registration is removed. -/
theorem c4_unload_success (oracle : String → Bool) (hass : Hass)
    (hc : oracle "climate" = true) (hs : oracle "sensor" = true)
    (hd : (hass.data.lookup DOMAIN).isSome = true) :
    (async_unload_entry oracle hass).2 = .ok true ∧
    (async_unload_entry oracle hass).1.data.lookup DOMAIN = none ∧
    (DOMAIN, SERVICE_HOLD_TIME) ∉ (async_unload_entry oracle hass).1.services := by
  refine ⟨?_, ?_, ?_⟩
  · simp [async_unload_entry, LYRIC_COMPONENTS, forwardEntryUnload, gatherAll, hc, hs,
      pyDel, hd]
  · have hdata : (async_unload_entry oracle hass).1.data =
        hass.data.filter fun p => p.1 ≠ DOMAIN := by
      simp [async_unload_entry, LYRIC_COMPONENTS, forwardEntryUnload, gatherAll, hc, hs,
        pyDel, hd]
    rw [hdata]
    exact lookup_filter_ne _ _
  · simp [async_unload_entry, LYRIC_COMPONENTS, forwardEntryUnload, gatherAll, hc, hs,
      pyDel, hd, List.mem_filter]

/-- Witness for C4: unload on a host holding the wrapper and the
hold-time service, with both sub-platform unloads succeeding. -/
theorem c4_unload_success_witness :
    (async_unload_entry oracleOk hassWithClient).2 = .ok true ∧
    (async_unload_entry oracleOk hassWithClient).1.data.lookup DOMAIN = none ∧
    (DOMAIN, SERVICE_HOLD_TIME) ∉ (async_unload_entry oracleOk hassWithClient).1.services :=
  c4_unload_success oracleOk hassWithClient rfl rfl (by decide)

/-- C9: unload presupposes that setup ran: on a host whose shared state
lacks the domain key, even with every sub-platform unload succeeding,
the deletion of the domain's entry raises `KeyError` instead of
returning success. -/
theorem c9_unload_requires_setup (oracle : String → Bool) (hass : Hass)
    (hc : oracle "climate" = true) (hs : oracle "sensor" = true)
    (hd : hass.data.lookup DOMAIN = none) :
    (async_unload_entry oracle hass).2 = .error "KeyError" := by
  simp [async_unload_entry, LYRIC_COMPONENTS, forwardEntryUnload, gatherAll, hc, hs,
    pyDel, hd]

/-- Witness for C9: unload on a fresh host with every sub-platform
unload succeeding. -/
theorem c9_unload_requires_setup_witness :
    (async_unload_entry oracleOk hass0).2 = .error "KeyError" :=
  c9_unload_requires_setup oracleOk hass0 rfl rfl rfl

/-- C8: a successful entry setup forwards to exactly the two
sub-platforms "climate" and "sensor", entry unload forwards to the same
two, and the forwarded sets coincide (order-independent). -/
theorem c8_forwarded_platforms (locs : List Location) (hass : Hass)
    (entry : ConfigEntry) (oracle : String → Bool) (hass2 : Hass)
    (hset : hass.forwardedSetups = []) (hunl : hass2.forwardedUnloads = [])
    (hok : (async_setup_entry locs hass entry).2.2 = .ok true) :
    (async_setup_entry locs hass entry).1.forwardedSetups = ["climate", "sensor"] ∧
    (async_unload_entry oracle hass2).1.forwardedUnloads = ["climate", "sensor"] ∧
    (∀ x, x ∈ (async_setup_entry locs hass entry).1.forwardedSetups ↔
      x ∈ (async_unload_entry oracle hass2).1.forwardedUnloads) ∧
    (async_setup_entry locs hass entry).1.forwardedSetups.length = 2 := by
  have hu : (async_unload_entry oracle hass2).1.forwardedUnloads =
      ["climate", "sensor"] := by
    rw [async_unload_entry_forwarded, hunl]
    rfl
  have hsetup : (async_setup_entry locs hass entry).1.forwardedSetups =
      ["climate", "sensor"] := by
    rcases async_setup_entry_cases locs hass entry with ⟨_, e, he⟩ | ⟨hf, _⟩
    · rw [he] at hok
      cases hok
    · rw [hf, hset]
      rfl
  refine ⟨hsetup, hu, ?_, by rw [hsetup]; rfl⟩
  intro x
  rw [hsetup, hu]

/-- Witness for C8: a host with the implementation registered and an
entry holding a token, set up then unloaded. -/
theorem c8_forwarded_platforms_witness :
    (async_setup_entry [] hassReady entryTok).1.forwardedSetups = ["climate", "sensor"] ∧
    (async_unload_entry oracleOk hass0).1.forwardedUnloads = ["climate", "sensor"] ∧
    (∀ x, x ∈ (async_setup_entry [] hassReady entryTok).1.forwardedSetups ↔
      x ∈ (async_unload_entry oracleOk hass0).1.forwardedUnloads) ∧
    (async_setup_entry [] hassReady entryTok).1.forwardedSetups.length = 2 :=
  c8_forwarded_platforms [] hassReady entryTok oracleOk hass0 rfl rfl rfl

end Lyric
